import Mathlib

/-!
Shallow embedding of the `cmos` crate (src/lib.rs): the RTC read algorithm
(`read_rtc`, `read_into_rtc`, `get_update_in_progress_flag`), the
`RTCDateTime` value type (`is_valid`, `from_tuple`, `days_by_month`, `MAX`),
and the `CMOSCenturyHandler` strategy.

Hardware port I/O is modelled by an oracle: a function from the index of a
port read (0, 1, 2, ...) to the byte the chip answers for the selected
register.  Each `CMOS::read` consumes one index.  Machine bytes (u8) are
modelled as `Nat` reduced `% 256` at the read boundary; `usize` is `Nat`.
The two unbounded `while`/`loop` spins of the source are given explicit
fuel and return `none` when the fuel runs out, so divergence of the source
corresponds to `none` for every fuel bound.
-/

/-- A hardware register double: `hw t reg` is the byte the chip answers for
register `reg` at the `t`-th port read performed by the driver. -/
def HW : Type := Nat → Nat → Nat

/-- `CMOS::read(reg)` (src/lib.rs line 106): one addressed byte read.
The oracle's answer is reduced to a u8 value. -/
def cmosRead (hw : HW) (t reg : Nat) : Nat := hw t reg % 256

/-- `RTCDateTime` (src/lib.rs line 265): year is `usize`, the rest are `u8`. -/
structure RTCDateTime where
  year : Nat
  month : Nat
  day : Nat
  hour : Nat
  minute : Nat
  second : Nat
deriving DecidableEq

/-- `CMOSCenturyHandler` (src/lib.rs line 256). -/
inductive CMOSCenturyHandler where
  | CenturyRegister (reg : Nat)
  | CurrentYear (year : Nat)

/-- `CMOS::get_update_in_progress_flag` (src/lib.rs line 141):
`self.read(0x0A) & 0x80`. -/
def get_update_in_progress_flag (hw : HW) (t : Nat) : Nat :=
  cmosRead hw t 0x0A &&& 0x80

/-- `CMOS::read_into_rtc` (src/lib.rs lines 143-152): while the update flag
is non-zero, read the six time registers into the snapshot.  Returns the
snapshot and the next free read index, or `none` when fuel runs out. -/
def read_into_rtc : Nat → HW → Nat → RTCDateTime → Option (RTCDateTime × Nat)
  | 0, _, _, _ => none
  | fuel + 1, hw, t, rtc_time =>
    if get_update_in_progress_flag hw t ≠ 0 then
      read_into_rtc fuel hw (t + 7)
        { second := cmosRead hw (t + 1) 0x00
          minute := cmosRead hw (t + 2) 0x02
          hour := cmosRead hw (t + 3) 0x04
          day := cmosRead hw (t + 4) 0x07
          month := cmosRead hw (t + 5) 0x08
          year := cmosRead hw (t + 6) 0x09 }
    else
      some (rtc_time, t + 1)

/-- The `loop` of `read_rtc` (src/lib.rs lines 186-207): save the previous
snapshot and the century byte as "last", re-run `read_into_rtc`, and break
when any of the seven compared values differs (the source breaks on
difference, not on agreement).  `century` is never re-read inside the loop. -/
def stabilize : Nat → Nat → HW → Nat → RTCDateTime → Nat → Option (RTCDateTime × Nat)
  | 0, _, _, _, _, _ => none
  | fuel + 1, rfuel, hw, t, rtc_time, century =>
    let last_second := rtc_time.second
    let last_minute := rtc_time.minute
    let last_hour := rtc_time.hour
    let last_day := rtc_time.day
    let last_month := rtc_time.month
    let last_year := rtc_time.year
    let last_century := century
    match read_into_rtc rfuel hw t rtc_time with
    | none => none
    | some (rtc2, t2) =>
      if last_second != rtc2.second || last_minute != rtc2.minute
          || last_hour != rtc2.hour || last_day != rtc2.day
          || last_month != rtc2.month || last_year != rtc2.year
          || last_century != century then
        some (rtc2, t2)
      else
        stabilize fuel rfuel hw t2 rtc2 century

/-- The BCD decode of `read_rtc` (src/lib.rs lines 213-221):
`(raw & 0x0F) + ((raw / 16) * 10)`. -/
def bcdVal (raw : Nat) : Nat := (raw &&& 0x0F) + (raw / 16) * 10

/-- The hour BCD decode of `read_rtc` (src/lib.rs line 215): converts the
low seven bits and preserves bit 0x80:
`((raw & 0x0F) + (((raw & 0x70) / 16) * 10)) | (raw & 0x80)`. -/
def bcdHour (raw : Nat) : Nat :=
  ((raw &&& 0x0F) + ((raw &&& 0x70) / 16) * 10) ||| (raw &&& 0x80)

/-- The 12-hour to 24-hour step of `read_rtc` (src/lib.rs lines 226-228):
when `(register_b & 0x02) == 0` and `(hour & 0x80) != 0`, the hour becomes
`((hour & 0x7F) + 12) % 24`; otherwise it is left unchanged. -/
def to24Hour (register_b hour : Nat) : Nat :=
  if register_b &&& 0x02 = 0 ∧ hour &&& 0x80 ≠ 0 then
    ((hour &&& 0x7F) + 12) % 24
  else
    hour

/-- `CMOS::read_rtc` (src/lib.rs lines 166-242), fuel-bounded: initial raw
capture, one-shot century register read (century-register strategy only),
stabilization loop, status-B read, BCD conversion, 12-to-24-hour
conversion, and year reconstruction. -/
def read_rtc (fuel : Nat) (hw : HW) (century_handler : CMOSCenturyHandler) :
    Option RTCDateTime :=
  match read_into_rtc fuel hw 0
      { second := 0, minute := 0, hour := 0, day := 0, month := 0, year := 0 } with
  | none => none
  | some (rtc1, t1) =>
    let ct : Nat × Nat :=
      match century_handler with
      | CMOSCenturyHandler.CenturyRegister century_reg =>
        (cmosRead hw t1 century_reg, t1 + 1)
      | CMOSCenturyHandler.CurrentYear _ => (0, t1)
    match stabilize fuel fuel hw ct.2 rtc1 ct.1 with
    | none => none
    | some (rtc2, t2) =>
      let register_b := cmosRead hw t2 0x0B
      let rtc3 : RTCDateTime :=
        if register_b &&& 0x04 = 0 then
          { second := bcdVal rtc2.second
            minute := bcdVal rtc2.minute
            hour := bcdHour rtc2.hour
            day := bcdVal rtc2.day
            month := bcdVal rtc2.month
            year := bcdVal rtc2.year }
        else rtc2
      let century2 : Nat :=
        if register_b &&& 0x04 = 0 then
          match century_handler with
          | CMOSCenturyHandler.CenturyRegister _ => bcdVal ct.1
          | CMOSCenturyHandler.CurrentYear _ => ct.1
        else ct.1
      let rtc4 : RTCDateTime := { rtc3 with hour := to24Hour register_b rtc3.hour }
      let rtc5 : RTCDateTime :=
        match century_handler with
        | CMOSCenturyHandler.CenturyRegister _ =>
          { rtc4 with year := rtc4.year + century2 * 100 }
        | CMOSCenturyHandler.CurrentYear current_year =>
          let year2 := rtc4.year + (current_year / 100) * 100
          { rtc4 with year := if year2 < current_year then year2 + 100 else year2 }
      some rtc5

/-- `RTCDateTime::days_by_month` (src/lib.rs lines 336-349). -/
def RTCDateTime.days_by_month (year month : Nat) : Nat :=
  match month with
  | 1 | 3 | 5 | 7 | 8 | 10 | 12 => 31
  | 4 | 6 | 9 | 11 => 30
  | 2 => if (year % 4 = 0 ∧ year % 100 ≠ 0) ∨ year % 400 = 0 then 29 else 28
  | _ => 0

/-- `RTCDateTime::is_valid` (src/lib.rs lines 307-313). -/
def RTCDateTime.is_valid (dt : RTCDateTime) : Bool :=
  dt.month < 13 && dt.hour < 24 && dt.minute < 60 && dt.second < 60
    && dt.day < RTCDateTime.days_by_month dt.year dt.month

/-- `RTCDateTime::from_tuple` (src/lib.rs lines 319-326): tuple order is
(year, month, day, hour, minute, second). -/
def RTCDateTime.from_tuple (tuple : Nat × Nat × Nat × Nat × Nat × Nat) :
    Option RTCDateTime :=
  let datetime : RTCDateTime :=
    { year := tuple.1, month := tuple.2.1, day := tuple.2.2.1,
      hour := tuple.2.2.2.1, minute := tuple.2.2.2.2.1, second := tuple.2.2.2.2.2 }
  if datetime.is_valid then some datetime else none

/-- The value of `usize::MAX`, modelling `usize` as 64 bits wide. -/
def USIZE_MAX : Nat := 2 ^ 64 - 1

/-- The `MAX` constant (src/lib.rs line 274). -/
def MAX : RTCDateTime :=
  { year := USIZE_MAX, month := 12, day := 31, hour := 23, minute := 59, second := 59 }

/-- Specification-side definition (spec section 3): the proleptic Gregorian
maximum day count for (year, month), meaningful for months 1..12; used to
compare `RTCDateTime.days_by_month` against the specification's words. -/
def specGregorianMaxDay (year month : Nat) : Nat :=
  if month = 1 ∨ month = 3 ∨ month = 5 ∨ month = 7 ∨ month = 8 ∨ month = 10 ∨ month = 12 then
    31
  else if month = 4 ∨ month = 6 ∨ month = 9 ∨ month = 11 then
    30
  else if (year % 4 = 0 ∧ year % 100 ≠ 0) ∨ year % 400 = 0 then
    29
  else
    28

/-- A scripted register double for terminating `read_rtc` runs: the update
flag is set at read indices 0 and 8 only, so each of the two capture passes
re-reads the time registers exactly once; the seconds register answers 1
during the first capture and `sec2` afterwards (so the two captures differ
when `sec2 ≠ 1`, which is what makes the source's loop break); hour, month,
year and status-B bytes are the fixed `hourv`, `monthv`, `yearv`, `regb`;
the day register answers 1 and every other register 0. -/
def scriptedHW (sec2 hourv monthv yearv regb : Nat) : HW := fun t reg =>
  if reg = 0x0A then (if t = 0 ∨ t = 8 then 0x80 else 0)
  else if reg = 0x00 then (if t ≤ 7 then 1 else sec2)
  else if reg = 0x04 then hourv
  else if reg = 0x07 then 1
  else if reg = 0x08 then monthv
  else if reg = 0x09 then yearv
  else if reg = 0x0B then regb
  else 0

/-- A register double for the torn-read scenario: the update-in-progress
bit (register 0x0A, bit 0x80) is set for the first seven reads (indices
0..6) and clear afterwards; the six time registers answer the fixed bytes
7, 8, 9, 10, 11, 12. -/
def tornHW : HW := fun t reg =>
  if reg = 0x0A then (if t ≤ 6 then 0x80 else 0)
  else if reg = 0x00 then 7
  else if reg = 0x02 then 8
  else if reg = 0x04 then 9
  else if reg = 0x07 then 10
  else if reg = 0x08 then 11
  else if reg = 0x09 then 12
  else 0

/-- C1: the claim says the stabilization loop of `read_rtc` terminates once
two consecutive raw captures agree on all seven compared fields.  The code
does the opposite: `break` fires when a field differs, so on a register
double whose update flag is always clear (every capture pass leaves the
snapshot untouched and consecutive captures agree on every field, the
century byte included) `read_rtc` never terminates: it returns `none` for
every fuel bound. -/
theorem read_rtc_diverges_when_captures_agree :
    ∀ fuel, read_rtc fuel (fun _ _ => 0) (CMOSCenturyHandler.CurrentYear 2019) = none := by
  have hread : ∀ f t rtc,
      read_into_rtc (f + 1) (fun _ _ => 0) t rtc = some (rtc, t + 1) := by
    intro f t rtc
    simp [read_into_rtc, get_update_in_progress_flag, cmosRead]
  have hstab : ∀ f rf t rtc c,
      stabilize f (rf + 1) (fun _ _ => 0) t rtc c = none := by
    intro f
    induction f with
    | zero => intro rf t rtc c; rfl
    | succ f ih =>
      intro rf t rtc c
      simp [stabilize, hread, ih]
  intro fuel
  cases fuel with
  | zero => rfl
  | succ f => simp [read_rtc, hread, hstab]

/-- C2: the claim says a value read while the update-in-progress flag was
set never survives as the captured snapshot.  The code reads the six time
registers precisely while the flag is set and stops once it is clear: on
`tornHW` the flag is set at read indices 0..6, the six registers are read
at indices 1..6 (flag still set there), and that snapshot
(second 7, minute 8, hour 9, day 10, month 11, year 12) survives as the
result of `read_into_rtc`. -/
theorem read_into_rtc_keeps_flagged_reads :
    read_into_rtc 3 tornHW 0 ⟨0, 0, 0, 0, 0, 0⟩ = some (⟨12, 11, 10, 9, 8, 7⟩, 8) ∧
    get_update_in_progress_flag tornHW 1 ≠ 0 ∧
    get_update_in_progress_flag tornHW 2 ≠ 0 ∧
    get_update_in_progress_flag tornHW 3 ≠ 0 ∧
    get_update_in_progress_flag tornHW 4 ≠ 0 ∧
    get_update_in_progress_flag tornHW 5 ≠ 0 ∧
    get_update_in_progress_flag tornHW 6 ≠ 0 := by
  refine ⟨rfl, ?_, ?_, ?_, ?_, ?_, ?_⟩ <;> decide

/-- C3: the claim says `is_valid` (and hence `from_tuple`) accepts exactly
the tuples with 1 ≤ day ≤ the Gregorian maximum for (year, month).  The
code checks `day < days_by_month` with no lower bound: it rejects
January 31 of 2020 (a real calendar date, so `from_tuple` answers `none`)
and accepts day 0. -/
theorem is_valid_day_off_by_one :
    RTCDateTime.is_valid ⟨2020, 1, 31, 0, 0, 0⟩ = false ∧
    RTCDateTime.from_tuple (2020, 1, 31, 0, 0, 0) = none ∧
    RTCDateTime.is_valid ⟨2020, 1, 0, 0, 0, 0⟩ = true := by
  refine ⟨?_, ?_, ?_⟩ <;> decide

/-- C5: the BCD decode formula of `read_rtc` recovers every n in 0..99 from
its BCD byte (tens digit in the high nibble, units digit in the low
nibble). -/
theorem bcd_roundtrip : ∀ n, n ≤ 99 → bcdVal ((n / 10) * 16 + n % 10) = n := by decide

/-- Witness for C5 at n = 59. -/
theorem bcd_roundtrip_witness : bcdVal ((59 / 10) * 16 + 59 % 10) = 59 :=
  bcd_roundtrip 59 (by decide)

/-- C4: with the current-year fallback strategy, `read_rtc` returns final
year (R / 100) * 100 + y, increased by a further 100 exactly when that
tentative value is less than R, for every two-digit year byte y the chip
answers (scripted here by `scriptedHW` in plain-binary mode, so the year
register byte y survives to the reconstruction step unchanged). -/
theorem read_rtc_current_year_fallback (R y : Nat) (hy : y ≤ 99) :
    read_rtc 4 (scriptedHW 2 0 1 y 6) (CMOSCenturyHandler.CurrentYear R) =
      some { year := if (R / 100) * 100 + y < R then (R / 100) * 100 + y + 100
                     else (R / 100) * 100 + y,
             month := 1, day := 1, hour := 0, minute := 0, second := 2 } := by
  have h256 : y % 256 = y := Nat.mod_eq_of_lt (by omega)
  simp [read_rtc, read_into_rtc, stabilize, scriptedHW, cmosRead,
    get_update_in_progress_flag, to24Hour, h256]
  rw [Nat.add_comm y ((R / 100) * 100)]

/-- Witness for C4: the two concrete runs of the claim, R = 2019 with
y = 19 giving 2019 and R = 2019 with y = 95 giving 2095. -/
theorem read_rtc_current_year_fallback_witness :
    read_rtc 4 (scriptedHW 2 0 1 19 6) (CMOSCenturyHandler.CurrentYear 2019) =
      some { year := 2019, month := 1, day := 1, hour := 0, minute := 0, second := 2 } ∧
    read_rtc 4 (scriptedHW 2 0 1 95 6) (CMOSCenturyHandler.CurrentYear 2019) =
      some { year := 2095, month := 1, day := 1, hour := 0, minute := 0, second := 2 } := by
  have h1 := read_rtc_current_year_fallback 2019 19 (by decide)
  have h2 := read_rtc_current_year_fallback 2019 95 (by decide)
  norm_num at h1 h2
  exact ⟨h1, h2⟩

set_option maxRecDepth 40000 in
/-- C6: the hour BCD conversion of `read_rtc` preserves bit 0x80 while
BCD-decoding only the low seven bits of the raw hour byte; in BCD 12-hour
mode (status-B bits 0x04 and 0x02 both clear) a raw hour byte 0x92 decodes
to final hour 0, both through the conversion steps and through a full
`read_rtc` run on a chip script answering 0x92 for the hour register. -/
theorem hour_conversion_preserves_pm_bit :
    (∀ raw, raw < 256 →
      bcdHour raw &&& 0x80 = raw &&& 0x80 ∧
      bcdHour raw = bcdVal (raw &&& 0x7F) ||| (raw &&& 0x80)) ∧
    to24Hour 0 (bcdHour 0x92) = 0 ∧
    read_rtc 4 (scriptedHW 2 0x92 1 0 0) (CMOSCenturyHandler.CurrentYear 0) =
      some { year := 0, month := 1, day := 1, hour := 0, minute := 0, second := 2 } := by
  refine ⟨by decide, by decide, rfl⟩

/-- Witness for C6 at raw hour byte 0x92. -/
theorem hour_conversion_preserves_pm_bit_witness :
    bcdHour 0x92 &&& 0x80 = 0x92 &&& 0x80 ∧
    bcdHour 0x92 = bcdVal (0x92 &&& 0x7F) ||| (0x92 &&& 0x80) :=
  hour_conversion_preserves_pm_bit.1 0x92 (by decide)

/-- C7: for every year and every month 1..12, `days_by_month` returns the
proleptic Gregorian maximum day count, with the four spec years checked on
February. -/
theorem days_by_month_matches_gregorian :
    (∀ year month, 1 ≤ month → month ≤ 12 →
      RTCDateTime.days_by_month year month = specGregorianMaxDay year month) ∧
    RTCDateTime.days_by_month 1900 2 = 28 ∧
    RTCDateTime.days_by_month 2000 2 = 29 ∧
    RTCDateTime.days_by_month 2024 2 = 29 ∧
    RTCDateTime.days_by_month 2023 2 = 28 := by
  refine ⟨?_, by decide, by decide, by decide, by decide⟩
  intro year month h1 h2
  interval_cases month <;> simp [RTCDateTime.days_by_month, specGregorianMaxDay]

/-- Witness for C7 at year 2000, month 2. -/
theorem days_by_month_matches_gregorian_witness :
    RTCDateTime.days_by_month 2000 2 = specGregorianMaxDay 2000 2 :=
  days_by_month_matches_gregorian.1 2000 2 (by decide) (by decide)

/-- C8: `from_tuple` either returns `some` of a `RTCDateTime` whose six
fields equal the tuple's components exactly and which `is_valid` accepts,
or returns `none`; it never returns an out-of-range `RTCDateTime`. -/
theorem from_tuple_exact_or_none (tuple : Nat × Nat × Nat × Nat × Nat × Nat)
    (dt : RTCDateTime) (h : RTCDateTime.from_tuple tuple = some dt) :
    dt.year = tuple.1 ∧ dt.month = tuple.2.1 ∧ dt.day = tuple.2.2.1 ∧
    dt.hour = tuple.2.2.2.1 ∧ dt.minute = tuple.2.2.2.2.1 ∧
    dt.second = tuple.2.2.2.2.2 ∧ dt.is_valid = true := by
  simp only [RTCDateTime.from_tuple] at h
  split at h
  next hvalid =>
    injection h with h2
    subst h2
    exact ⟨rfl, rfl, rfl, rfl, rfl, rfl, hvalid⟩
  next => exact absurd h (by simp)

/-- Witness for C8 at the tuple (2019, 3, 5, 8, 30, 2). -/
theorem from_tuple_exact_or_none_witness :
    (⟨2019, 3, 5, 8, 30, 2⟩ : RTCDateTime).year = 2019 ∧
    (⟨2019, 3, 5, 8, 30, 2⟩ : RTCDateTime).month = 3 ∧
    (⟨2019, 3, 5, 8, 30, 2⟩ : RTCDateTime).day = 5 ∧
    (⟨2019, 3, 5, 8, 30, 2⟩ : RTCDateTime).hour = 8 ∧
    (⟨2019, 3, 5, 8, 30, 2⟩ : RTCDateTime).minute = 30 ∧
    (⟨2019, 3, 5, 8, 30, 2⟩ : RTCDateTime).second = 2 ∧
    (⟨2019, 3, 5, 8, 30, 2⟩ : RTCDateTime).is_valid = true :=
  from_tuple_exact_or_none (2019, 3, 5, 8, 30, 2) ⟨2019, 3, 5, 8, 30, 2⟩ (by decide)

/-- C9: `read_rtc` applies no validity check to its result: on a register
script answering month byte 77 in plain-binary mode the run terminates and
returns a `RTCDateTime` that `is_valid` rejects. -/
theorem read_rtc_returns_invalid :
    read_rtc 4 (scriptedHW 2 0 77 19 6) (CMOSCenturyHandler.CurrentYear 2019) =
      some { year := 2019, month := 77, day := 1, hour := 0, minute := 0, second := 2 } ∧
    RTCDateTime.is_valid
      { year := 2019, month := 77, day := 1, hour := 0, minute := 0, second := 2 } = false := by
  refine ⟨rfl, by decide⟩

/-- C10: with the other five fields in range, `is_valid` accepts a day d
exactly when d is strictly below `days_by_month`; day 0 is accepted, the
month's true last day (day 31 of January) is rejected, and the exported
`MAX` constant is rejected. -/
theorem is_valid_strict_day_bound :
    (∀ year month day hour minute second,
      1 ≤ month → month ≤ 12 → hour < 24 → minute < 60 → second < 60 →
      (RTCDateTime.is_valid ⟨year, month, day, hour, minute, second⟩ = true ↔
        day < RTCDateTime.days_by_month year month)) ∧
    RTCDateTime.is_valid ⟨2024, 1, 0, 0, 0, 0⟩ = true ∧
    RTCDateTime.is_valid ⟨2024, 1, 31, 0, 0, 0⟩ = false ∧
    RTCDateTime.is_valid MAX = false := by
  refine ⟨?_, by decide, by decide, by decide⟩
  intro year month day hour minute second h1 h2 h3 h4 h5
  simp only [RTCDateTime.is_valid, Bool.and_eq_true, decide_eq_true_eq]
  constructor
  · rintro ⟨⟨⟨⟨_, _⟩, _⟩, _⟩, h⟩
    exact h
  · intro h
    exact ⟨⟨⟨⟨by omega, by omega⟩, by omega⟩, by omega⟩, h⟩

/-- Witness for C10 at year 2024, month 2, day 10. -/
theorem is_valid_strict_day_bound_witness :
    RTCDateTime.is_valid ⟨2024, 2, 10, 3, 4, 5⟩ = true ↔
      10 < RTCDateTime.days_by_month 2024 2 :=
  is_valid_strict_day_bound.1 2024 2 10 3 4 5 (by decide) (by decide) (by decide)
    (by decide) (by decide)
